import Mathlib

/-!
Shallow embedding of the greenthread-dbt ETL pipeline
(`src/_aws_backup/src/extract_lambda.py`, `src/src/transform_lambda.py`,
`src/src/db_utils.py`) and proofs of the behavioural claims about it.

Conventions of the embedding:
* Python strings are Lean `String`s; the string helpers used by the code
  (`str.replace`, `str.strip`, the `in` substring test, `float(...)` on the
  decimal strings produced by stripping the currency symbol) are modelled as
  executable functions on `List Char` below.
* Python floats are modelled as exact rationals `ℚ`; `round(x, 2)` is
  modelled as round-half-to-even at two decimal places (Python's rounding
  mode), applied to the exact value.
* Fallible code is modelled with `Option`/`Except`; the external services
  (S3, the database, the CDC stored procedure) are passed in as explicit
  environment values, and the writes a run performs are returned as an
  explicit effect list.  A Python `raise` that escapes a function is the
  `Except.error` case; the carried strings are the exception type name
  (`type(e).__name__`) and message where the code reports them.
* Timestamp fields (`processed_at`, the `created_at` column contents,
  execution time) are wall-clock data; they are omitted from the record
  models except where a claim needs them (`created_at` ordering in the
  staging table, modelled as a `Nat`).
-/

/-- A raw scraped record as produced by `scrape_books` and stored in
`raw/books/date=<date>/books.json`: title, price text and availability text. -/
structure RawBook where
  title : String
  price : String
  availability : String
deriving Repr, DecidableEq

/-- Fuel-driven worker for `replaceL`; the fuel is an upper bound on the
length of the remaining list, so it never runs out when started at the
list's length. -/
def replaceAux (pat repl : List Char) : ℕ → List Char → List Char
  | 0, l => l
  | _ + 1, [] => []
  | fuel + 1, c :: rest =>
    if pat ≠ [] ∧ pat.isPrefixOf (c :: rest) then
      repl ++ replaceAux pat repl fuel ((c :: rest).drop pat.length)
    else
      c :: replaceAux pat repl fuel rest

/-- Model of Python `str.replace(pat, repl)` on character lists: replaces all
non-overlapping occurrences left to right.  The patterns used by the code
(`"£"`, `"Â"`, `"Â£"`) are never empty; an empty pattern is treated as a
no-op here. -/
def replaceL (pat repl l : List Char) : List Char :=
  replaceAux pat repl l.length l

/-- Model of Python `str.strip()`: drop whitespace from both ends. -/
def trimL (l : List Char) : List Char :=
  ((l.dropWhile Char.isWhitespace).reverse.dropWhile Char.isWhitespace).reverse

/-- Split a decimal literal into its integer and fractional digit strings:
an optional run of digits, an optional single dot, an optional run of
digits, with at least one digit overall.  Any other shape is `none`. -/
def splitDecimal (l : List Char) : Option (List Char × List Char) :=
  let ip := l.takeWhile (fun c => c ≠ '.')
  match l.dropWhile (fun c => c ≠ '.') with
  | [] => if ip ≠ [] ∧ ip.all Char.isDigit then some (ip, []) else none
  | _ :: fp =>
    if (ip ≠ [] ∨ fp ≠ []) ∧ ip.all Char.isDigit ∧ fp.all Char.isDigit then
      some (ip, fp)
    else none

/-- Numeric value of a digit string (most significant first). -/
def digitsVal (l : List Char) : ℕ :=
  l.foldl (fun a c => 10 * a + (c.toNat - 48)) 0

/-- Model of Python `float(s)` restricted to the unsigned decimal literals
that symbol-stripping a scraped price can produce; any other shape raises
`ValueError` in Python, modelled as `none`. -/
def parseFloat (l : List Char) : Option ℚ :=
  (splitDecimal l).map fun p =>
    (digitsVal p.1 : ℚ) + (digitsVal p.2 : ℚ) / (10 : ℚ) ^ p.2.length

/-- `parse_price` from `extract_lambda.py` (lines 133–154):
`price_str.replace("£", "").replace("Â", "").strip()` then `float(...)`;
`none` models the re-raised `ValueError`. -/
def parse_price (price_str : String) : Option ℚ :=
  parseFloat (trimL (replaceL ['Â'] [] (replaceL ['£'] [] price_str.data)))

/-- The inline price extraction of `transform_data` in `transform_lambda.py`
(line 111): `book["price"].replace("Â£", "").replace("£", "").strip()` then
`float(...)`. -/
def transformParsePrice (price : String) : Option ℚ :=
  parseFloat (trimL (replaceL ['£'] [] (replaceL ['Â', '£'] [] price.data)))

/-- Model of Python's `pat in s` substring test. -/
def isSubstring (pat : List Char) : List Char → Bool
  | [] => pat.isEmpty
  | c :: rest => pat.isPrefixOf (c :: rest) || isSubstring pat rest

/-- The Collector's in-stock derivation in `save_to_rds`
(`extract_lambda.py` line 196): `"In stock" in book["availability"]`. -/
def extractIsInStock (availability : String) : Bool :=
  isSubstring "In stock".data availability.data

/-- The Reconciler's in-stock classification in `transform_data`
(`transform_lambda.py` line 115): `"In stock" in book["availability"]`. -/
def transformIsInStock (availability : String) : Bool :=
  isSubstring "In stock".data availability.data

/-- Floor of a rational, written with `Int.fdiv` on the reduced fraction. -/
def floorQ (q : ℚ) : ℤ := Int.fdiv q.num q.den

/-- Model of Python `round(x, 2)` on the exact value: round half to even at
two decimal places. -/
def round2 (x : ℚ) : ℚ :=
  let y : ℚ := x * 100
  let f : ℤ := floorQ y
  let r : ℚ := y - (f : ℚ)
  let n : ℤ :=
    if r < 1 / 2 then f
    else if 1 / 2 < r then f + 1
    else if f % 2 = 0 then f else f + 1
  (n : ℚ) / 100

/-- A processed record as built by `transform_data`
(`transform_lambda.py` lines 122–130); the `processed_at` timestamp is
omitted (wall-clock data). -/
structure ProcessedBook where
  title : String
  price_gbp : ℚ
  price_usd : ℚ
  price_eur : ℚ
  in_stock : Bool
  availability : String
deriving Repr, DecidableEq

/-- The summary built by `transform_data` (`transform_lambda.py` lines
140–151); the `date` and `processed_at` timestamp fields are omitted
(wall-clock data). -/
structure Summary where
  total_books_raw : ℕ
  books_in_stock : ℕ
  books_out_of_stock : ℕ
  total_inventory_value_gbp : ℚ
  total_inventory_value_usd : ℚ
  average_price_gbp : ℚ
deriving Repr, DecidableEq

/-- One iteration of the `for book in raw_data` loop of `transform_data`
(`transform_lambda.py` lines 108–137).  The state is (processed list so
far, running total of unrounded in-stock GBP value, in-stock count,
out-of-stock count).  A record whose price fails to parse raises inside the
`try`, is logged and skipped (`continue`), leaving the state unchanged. -/
def transformStep (st : List ProcessedBook × ℚ × ℕ × ℕ) (book : RawBook) :
    List ProcessedBook × ℚ × ℕ × ℕ :=
  match transformParsePrice book.price with
  | none => st
  | some price_gbp =>
    if transformIsInStock book.availability then
      (st.1 ++ [{ title := book.title
                  price_gbp := round2 price_gbp
                  price_usd := round2 (price_gbp * (127 / 100))
                  price_eur := round2 (price_gbp * (117 / 100))
                  in_stock := true
                  availability := book.availability }],
       st.2.1 + price_gbp, st.2.2.1 + 1, st.2.2.2)
    else
      (st.1, st.2.1, st.2.2.1, st.2.2.2 + 1)

/-- `transform_data` from `transform_lambda.py` (lines 85–158): the record
loop followed by the summary construction.  The USD and EUR multipliers
1.27 and 1.17 are the exact rationals 127/100 and 117/100. -/
def transform_data (raw_data : List RawBook) : List ProcessedBook × Summary :=
  let st := raw_data.foldl transformStep ([], 0, 0, 0)
  (st.1,
   { total_books_raw := raw_data.length
     books_in_stock := st.2.2.1
     books_out_of_stock := st.2.2.2
     total_inventory_value_gbp := round2 st.2.1
     total_inventory_value_usd := round2 (st.2.1 * (127 / 100))
     average_price_gbp :=
       if 0 < st.2.2.1 then round2 (st.2.1 / (st.2.2.1 : ℚ)) else 0 })

/-- A row of the `staging_books` table.  The Collector's insert supplies the
first six columns (`extract_lambda.py` lines 186–205); `processed` defaults
to false and `created_at` is assigned by the database (modelled as a `Nat`
so the Reconciler's `ORDER BY created_at DESC` can be stated). -/
structure StagingRow where
  title : String
  price_gbp : ℚ
  availability : String
  is_in_stock : Bool
  scraped_date : String
  batch_id : String
  processed : Bool
  created_at : ℕ
deriving Repr, DecidableEq

/-- The `batch_data` list built by the record loop of `save_to_rds`
(`extract_lambda.py` lines 192–208): one staging row per record whose price
parses; a record whose price fails to parse is logged and skipped
(`continue`), leaving the batch unchanged. -/
def buildBatchData (books : List RawBook) (run_date batch_id : String) :
    List StagingRow :=
  books.filterMap fun book =>
    match parse_price book.price with
    | none => none
    | some price_gbp =>
      some { title := book.title
             price_gbp := price_gbp
             availability := book.availability
             is_in_stock := extractIsInStock book.availability
             scraped_date := run_date
             batch_id := batch_id
             processed := false
             created_at := 0 }

/-- The count returned by `save_to_rds` on a successful insert
(`extract_lambda.py` lines 210–217): `len(batch_data)` after the batch
insert. -/
def save_to_rds (books : List RawBook) (run_date batch_id : String) : ℕ :=
  (buildBatchData books run_date batch_id).length

/-- `raw/books/date=<date>/books.json`, the raw object key used by both
jobs. -/
def raw_key (run_date : String) : String :=
  "raw/books/date=" ++ run_date ++ "/books.json"

/-- `processed/books/date=<date>/books.json`. -/
def processed_books_key (run_date : String) : String :=
  "processed/books/date=" ++ run_date ++ "/books.json"

/-- `processed/summary/date=<date>/summary.json`. -/
def summary_obj_key (run_date : String) : String :=
  "processed/summary/date=" ++ run_date ++ "/summary.json"

/-- What a Collector run finds in its environment: whether the `SELECT 1`
connectivity test passes, the outcome of the HTTP scrape (the error case
carries the exception's type name and message), whether the S3 put or the
staging insert raises, and the run date and batch id fixed at run start. -/
structure CollectorEnv where
  dbOk : Bool
  scrape : Except (String × String) (List RawBook)
  s3PutFailure : Option (String × String)
  insertFailure : Option (String × String)
  run_date : String
  batch_id : String

/-- The exceptions that can escape a Collector run
(`extract_lambda.py` `lambda_handler`), by raise site. -/
inductive CollectorError where
  | dbTestFailed
  | scrapeFailure (excName msg : String)
  | emptyResult
  | s3PutFailure (excName msg : String)
  | insertFailure (excName msg : String)
deriving Repr, DecidableEq

/-- A write the Collector performs against the outside world. -/
inductive CollectorEffect where
  | s3Put (key : String) (records : ℕ)
  | stagingInsert (batch_id : String) (rows : ℕ)
deriving Repr, DecidableEq

/-- The `try` body of the Collector's `lambda_handler`
(`extract_lambda.py` lines 256–303): connectivity check, scrape, empty-result
check, S3 put, staging insert, in that order.  Returns the raised error or
the (scraped count, inserted count, S3 key) of a successful run, paired with
the list of writes that actually happened. -/
def extractPipeline (env : CollectorEnv) :
    Except CollectorError (ℕ × ℕ × String) × List CollectorEffect :=
  if env.dbOk = false then (.error .dbTestFailed, [])
  else
    match env.scrape with
    | .error (n, m) => (.error (.scrapeFailure n m), [])
    | .ok books =>
      if books.length = 0 then (.error .emptyResult, [])
      else
        match env.s3PutFailure with
        | some (n, m) => (.error (.s3PutFailure n m), [])
        | none =>
          let key := raw_key env.run_date
          match env.insertFailure with
          | some (n, m) => (.error (.insertFailure n m), [.s3Put key books.length])
          | none =>
            let cnt := save_to_rds books env.run_date env.batch_id
            (.ok (books.length, cnt, key),
             [.s3Put key books.length, .stagingInsert env.batch_id cnt])

/-- The Collector's success result (`extract_lambda.py` lines 286–295),
without the wall-clock fields. -/
structure CollectorSuccessBody where
  run_date : String
  batch_id : String
  records_scraped : ℕ
  records_inserted_rds : ℕ
  s3_key : String
deriving Repr, DecidableEq

/-- The Collector's `lambda_handler` (`extract_lambda.py` lines 230–327):
on success it returns the success result; on failure the `except` block
builds an error summary, logs it, and then re-raises the original
exception, so the caller sees the error (`Except.error`). -/
def extract_lambda_handler (env : CollectorEnv) :
    Except CollectorError CollectorSuccessBody × List CollectorEffect :=
  match extractPipeline env with
  | (.ok (scraped, inserted, key), effs) =>
    (.ok { run_date := env.run_date
           batch_id := env.batch_id
           records_scraped := scraped
           records_inserted_rds := inserted
           s3_key := key }, effs)
  | (.error e, effs) => (.error e, effs)

/-- What `s3.get_object` on the raw key can do: return a body (already
decoded as a record list), raise `NoSuchKey`, or raise some other storage
exception (type name, message). -/
inductive S3ReadOutcome where
  | found (records : List RawBook)
  | noSuchKey
  | failure (excName msg : String)
deriving Repr

/-- The exceptions that can escape the Reconciler's stages
(`transform_lambda.py`), by raise site.  `missingUpstream` is the dedicated
`Exception(f"Raw data file not found: {raw_key}")` raised on `NoSuchKey`;
`storageFailure` is any other storage exception re-raised unchanged;
`invalidQuery` is the database driver's `ProgrammingError` for a SQL
statement the database rejects before executing it. -/
inductive TransformError where
  | dbTestFailed
  | missingUpstream (msg : String)
  | storageFailure (excName msg : String)
  | s3WriteFailure (excName msg : String)
  | invalidQuery (msg : String)
  | batchNotFound (run_date : String)
  | reconciliation (msg : String)
deriving Repr, DecidableEq

/-- `read_from_s3` from `transform_lambda.py` (lines 51–82): fetch the raw
object for the run date; on `NoSuchKey` raise the dedicated not-found
exception; re-raise anything else. -/
def read_from_s3 (s3 : String → S3ReadOutcome) (run_date : String) :
    Except TransformError (List RawBook) :=
  match s3 (raw_key run_date) with
  | .found records => .ok records
  | .noSuchKey => .error (.missingUpstream ("Raw data file not found: " ++ raw_key run_date))
  | .failure n m => .error (.storageFailure n m)

/-- `r.scraped_date = %s AND processed = FALSE`, the WHERE clause of the
batch-id query (`transform_lambda.py` lines 310–319). -/
def matchesPending (run_date : String) (r : StagingRow) : Bool :=
  r.scraped_date == run_date && r.processed == false

/-- Insert a row into a list that is sorted by `created_at` descending,
keeping it sorted. -/
def insertDescBy (r : StagingRow) : List StagingRow → List StagingRow
  | [] => [r]
  | x :: xs => if x.created_at ≤ r.created_at then r :: x :: xs else x :: insertDescBy r xs

/-- Sort staging rows by `created_at` descending (the model of
`ORDER BY created_at DESC`). -/
def sortDescByCreated : List StagingRow → List StagingRow
  | [] => []
  | r :: rs => insertDescBy r (sortDescByCreated rs)

/-- The batch-id lookup the query of `get_extract_batch_id` describes, as
the spec words it (`transform_lambda.py` lines 310–319 read as intent):
filter the staging table to unprocessed rows of the run date, order by
creation time descending, take the first row's batch id, and report the
no-unprocessed-batch failure when there is none.  Stated separately so the
faithful model of `get_extract_batch_id` below can be compared against it:
the code's actual query text never computes this. -/
def specBatchIdQuery (staging : List StagingRow) (run_date : String) :
    Except TransformError String :=
  match sortDescByCreated (staging.filter (matchesPending run_date)) with
  | [] => .error (.batchNotFound run_date)
  | r :: _ => .ok r.batch_id

/-- `get_extract_batch_id` from `transform_lambda.py` (lines 287–337).  The
function executes the fixed query text `SELECT DISTINCT batch_id FROM
staging_books WHERE scraped_date = %s AND processed = FALSE ORDER BY
created_at DESC LIMIT 1` against its PostgreSQL database (psycopg2, RDS
PostgreSQL per the module docstrings).  PostgreSQL rejects a `SELECT
DISTINCT` whose `ORDER BY` uses an expression absent from the select list
(SQLSTATE 42P10, "for SELECT DISTINCT, ORDER BY expressions must appear in
select list"), so `cursor.execute` raises a `ProgrammingError` on every
invocation, for every table state and parameter binding, before any row is
considered; the `except` block logs and re-raises it.  The `fetchone`
branches after the query are therefore unreachable. -/
def get_extract_batch_id (_staging : List StagingRow) (_run_date : String) :
    Except TransformError String :=
  .error (.invalidQuery "for SELECT DISTINCT, ORDER BY expressions must appear in select list")

/-- The CDC result dictionary built by `execute_cdc_batch_processing`
(`transform_lambda.py` lines 255–261) from the procedure's single result
row, in the row's field order. -/
structure CdcSummary where
  new_books : ℤ
  removed_books : ℤ
  price_changes : ℤ
  stock_changes : ℤ
  total_processed : ℤ
deriving Repr, DecidableEq

/-- A transaction-control action taken on the database connection. -/
inductive DbAction where
  | commit
  | rollback
deriving Repr, DecidableEq

/-- `execute_cdc_batch_processing` from `transform_lambda.py` (lines
208–284).  The external stored procedure `process_cdc_batch` is an opaque
function of its two positional arguments `(batch_id, run_date)` returning a
result set of five-integer rows; `fetchone` takes the first row.  One row:
build the summary in field order and commit.  No row: roll back and raise
the no-results exception. -/
def execute_cdc_batch_processing
    (proc : String × String → List (ℤ × ℤ × ℤ × ℤ × ℤ))
    (batch_id run_date : String) :
    Except TransformError CdcSummary × List DbAction :=
  match proc (batch_id, run_date) with
  | [] => (.error (.reconciliation "CDC stored procedure returned no results"), [.rollback])
  | row :: _ =>
    (.ok { new_books := row.1
           removed_books := row.2.1
           price_changes := row.2.2.1
           stock_changes := row.2.2.2.1
           total_processed := row.2.2.2.2 }, [.commit])

/-- What a Reconciler run finds in its environment: the connectivity-test
outcome, the S3 object store (keyed reads), whether the processed/summary
S3 puts raise (type name, message), the staging table contents, the CDC
stored procedure, and the run date. -/
structure TransformEnv where
  dbOk : Bool
  s3 : String → S3ReadOutcome
  putFailure : Option (String × String)
  staging : List StagingRow
  proc : String × String → List (ℤ × ℤ × ℤ × ℤ × ℤ)
  run_date : String

/-- A write or transaction action the Reconciler performs against the
outside world. -/
inductive TransformEffect where
  | s3PutProcessed (key : String) (records : ℕ)
  | s3PutSummary (key : String)
  | db (a : DbAction)
deriving Repr, DecidableEq

/-- The Reconciler's success body (`transform_lambda.py` lines 403–419),
without the wall-clock fields. -/
structure TransformSuccessBody where
  run_date : String
  batch_id : String
  processed_records : ℕ
  summary : Summary
  cdc_summary : CdcSummary
  processed_key : String
  summary_key : String
deriving Repr

/-- The `try` body of the Reconciler's `lambda_handler`
(`transform_lambda.py` lines 366–429): connectivity check, read raw,
transform, save processed and summary to S3, resolve the batch id, run the
CDC procedure, in that order.  The save stage's two puts are modelled as a
unit: on failure the stage raises and contributes no write. -/
def transformPipeline (env : TransformEnv) :
    Except TransformError TransformSuccessBody × List TransformEffect :=
  if env.dbOk = false then (.error .dbTestFailed, [])
  else
    match read_from_s3 env.s3 env.run_date with
    | .error e => (.error e, [])
    | .ok raw_data =>
      let pr := transform_data raw_data
      match env.putFailure with
      | some (n, m) => (.error (.s3WriteFailure n m), [])
      | none =>
        let pkey := processed_books_key env.run_date
        let skey := summary_obj_key env.run_date
        let puts : List TransformEffect := [.s3PutProcessed pkey pr.1.length, .s3PutSummary skey]
        match get_extract_batch_id env.staging env.run_date with
        | .error e => (.error e, puts)
        | .ok batch_id =>
          match execute_cdc_batch_processing env.proc batch_id env.run_date with
          | (.error e, acts) => (.error e, puts ++ acts.map .db)
          | (.ok cdc, acts) =>
            (.ok { run_date := env.run_date
                   batch_id := batch_id
                   processed_records := pr.1.length
                   summary := pr.2
                   cdc_summary := cdc
                   processed_key := pkey
                   summary_key := skey }, puts ++ acts.map .db)

/-- The exception message the failure payload reports (`str(e)` in the
`except` block), per raise site. -/
def errorMessage : TransformError → String
  | .dbTestFailed => "Database connection test failed"
  | .missingUpstream m => m
  | .storageFailure _ m => m
  | .s3WriteFailure _ m => m
  | .invalidQuery m => m
  | .batchNotFound rd => "No unprocessed batch found for date: " ++ rd
  | .reconciliation m => m

/-- The exception type name the failure payload reports
(`type(e).__name__`): the code raises plain `Exception`s itself and
re-raises external exceptions unchanged (the driver's rejected-statement
exception is a `ProgrammingError`). -/
def errorTypeName : TransformError → String
  | .storageFailure n _ => n
  | .s3WriteFailure n _ => n
  | .invalidQuery _ => "ProgrammingError"
  | _ => "Exception"

/-- The Reconciler handler's returned payload: a 200 success body or a 500
error body with `error_message` and `error_type`. -/
inductive TransformResponse where
  | success (body : TransformSuccessBody)
  | failure (error_message error_type : String)
deriving Repr

/-- The `statusCode` field of the returned payload. -/
def statusCode : TransformResponse → ℕ
  | .success _ => 200
  | .failure _ _ => 500

/-- The Reconciler's `lambda_handler` (`transform_lambda.py` lines
340–454): unlike the Collector it catches every exception and returns the
500 error payload instead of re-raising. -/
def transform_lambda_handler (env : TransformEnv) : TransformResponse :=
  match (transformPipeline env).1 with
  | .ok body => .success body
  | .error e => .failure (errorMessage e) (errorTypeName e)

/-- Concrete Collector environment used to instantiate hypotheses: the
connectivity test passes and the scrape returns zero records. -/
def emptyScrapeEnv : CollectorEnv :=
  { dbOk := true
    scrape := .ok []
    s3PutFailure := none
    insertFailure := none
    run_date := "2026-02-03"
    batch_id := "extract_2026-02-03_080512" }

/-- Concrete S3 state with no objects at all. -/
def emptyS3 : String → S3ReadOutcome := fun _ => .noSuchKey

/-- Concrete raw record that is out of stock (used to instantiate the
zero-in-stock hypothesis). -/
def outOfStockBook : RawBook :=
  { title := "B", price := "£5.00", availability := "Out of stock" }

/-- Concrete staging table holding exactly one unprocessed row for the run
date 2026-02-03: the input on which the intended batch-id resolution would
succeed, exhibiting the batch-id query bug. -/
def demoStaging : List StagingRow :=
  [{ title := "A"
     price_gbp := 10
     availability := "In stock (3 available)"
     is_in_stock := true
     scraped_date := "2026-02-03"
     batch_id := "extract_2026-02-03_080512"
     processed := false
     created_at := 1 }]

/-! ### Helper lemmas -/

lemma floorQ_intCast (n : ℤ) : floorQ (n : ℚ) = n := by
  simp [floorQ, Rat.num_intCast, Rat.den_intCast]

lemma round2_eq_of_mul_hundred (x : ℚ) (n : ℤ) (h : x * 100 = (n : ℚ)) :
    round2 x = (n : ℚ) / 100 := by
  simp only [round2, h, floorQ_intCast]
  norm_num

lemma buildBatchData_length (books : List RawBook) (rd bid : String) :
    (buildBatchData books rd bid).length
      + (books.filter (fun b => (parse_price b.price).isNone)).length
      = books.length := by
  induction books with
  | nil => simp [buildBatchData]
  | cons b tl ih =>
    cases hb : parse_price b.price <;>
      simp only [buildBatchData, List.filterMap_cons, List.filter_cons, hb,
        Option.isNone_none, Option.isNone_some, if_true, if_false] at ih ⊢ <;>
      simp at ih ⊢ <;> omega

lemma buildBatchData_skips (books : List RawBook) (rd bid : String) :
    buildBatchData books rd bid
      = buildBatchData (books.filter (fun b => (parse_price b.price).isSome)) rd bid := by
  induction books with
  | nil => simp [buildBatchData]
  | cons b tl ih =>
    cases hb : parse_price b.price <;>
      simp only [buildBatchData, List.filterMap_cons, List.filter_cons, hb,
        Option.isSome_none, Option.isSome_some, if_true, if_false] at ih ⊢ <;>
      simp [List.filterMap_cons, hb, ih]

lemma replaceAux_of_head_not_mem (p : Char) (pt repl : List Char) :
    ∀ (fuel : ℕ) (t : List Char), p ∉ t → replaceAux (p :: pt) repl fuel t = t := by
  intro fuel
  induction fuel with
  | zero => intro t _; rfl
  | succ n ih =>
    intro t ht
    cases t with
    | nil => rfl
    | cons c rest =>
      have hpc : p ≠ c := fun hh => ht (hh ▸ List.mem_cons_self c rest)
      have hprest : p ∉ rest := fun hh => ht (List.mem_cons_of_mem c hh)
      have hpre : (p :: pt).isPrefixOf (c :: rest) = false := by
        simp [List.isPrefixOf]
        intro hc
        exact absurd hc hpc
      rw [replaceAux]
      simp only [hpre, Bool.false_eq_true, and_false, if_false]
      rw [ih rest hprest]

lemma replaceAux_cons_ne (p : Char) (pt repl : List Char) (fuel : ℕ) (c : Char)
    (rest : List Char) (hne : (p == c) = false) :
    replaceAux (p :: pt) repl (fuel + 1) (c :: rest)
      = c :: replaceAux (p :: pt) repl fuel rest := by
  rw [replaceAux]
  simp [List.isPrefixOf, hne]

lemma replaceAux_one_match (p : Char) (fuel : ℕ) (s : List Char) :
    replaceAux [p] [] (fuel + 1) (p :: s) = replaceAux [p] [] fuel s := by
  rw [replaceAux]
  simp [List.isPrefixOf]

lemma replaceAux_two_match (p q : Char) (fuel : ℕ) (s : List Char) :
    replaceAux [p, q] [] (fuel + 1) (p :: q :: s) = replaceAux [p, q] [] fuel s := by
  rw [replaceAux]
  simp [List.isPrefixOf]

lemma replaceL_not_mem (p : Char) (pt s : List Char) (h : p ∉ s) :
    replaceL (p :: pt) [] s = s := by
  rw [replaceL]
  exact replaceAux_of_head_not_mem p pt [] _ _ h

lemma replaceL_head_strip (p : Char) (s : List Char) (h : p ∉ s) :
    replaceL [p] [] (p :: s) = s := by
  rw [replaceL]
  simp only [List.length_cons]
  rw [replaceAux_one_match]
  exact replaceAux_of_head_not_mem p [] [] s.length s h

lemma parse_price_pound (s : String) (h1 : '£' ∉ s.data) (h2 : 'Â' ∉ s.data) :
    parse_price ("£" ++ s) = parseFloat (trimL s.data) := by
  have hd : ("£" ++ s).data = '£' :: s.data := by
    rw [String.data_append]
    rfl
  unfold parse_price
  rw [hd, replaceL_head_strip '£' s.data h1, replaceL_not_mem 'Â' [] s.data h2]

lemma parse_price_miscoded (s : String) (h1 : '£' ∉ s.data) (h2 : 'Â' ∉ s.data) :
    parse_price ("Â£" ++ s) = parseFloat (trimL s.data) := by
  have hd : ("Â£" ++ s).data = 'Â' :: '£' :: s.data := by
    rw [String.data_append]
    rfl
  have e1 : replaceL ['£'] [] ('Â' :: '£' :: s.data) = 'Â' :: s.data := by
    rw [replaceL]
    simp only [List.length_cons]
    rw [replaceAux_cons_ne '£' [] [] _ 'Â' _ (by decide), replaceAux_one_match]
    rw [replaceAux_of_head_not_mem '£' [] [] s.data.length s.data h1]
  have e2 : replaceL ['Â'] [] ('Â' :: s.data) = s.data :=
    replaceL_head_strip 'Â' s.data h2
  unfold parse_price
  rw [hd, e1, e2]

lemma transform_parse_pound (s : String) (h1 : '£' ∉ s.data) (h2 : 'Â' ∉ s.data) :
    transformParsePrice ("£" ++ s) = parseFloat (trimL s.data) := by
  have hd : ("£" ++ s).data = '£' :: s.data := by
    rw [String.data_append]
    rfl
  have hnm : 'Â' ∉ '£' :: s.data := by
    intro hh
    rcases List.mem_cons.mp hh with he | he
    · exact absurd he (by decide)
    · exact h2 he
  unfold transformParsePrice
  rw [hd, replaceL_not_mem 'Â' ['£'] _ hnm, replaceL_head_strip '£' s.data h1]

lemma transform_parse_miscoded (s : String) (h1 : '£' ∉ s.data) (h2 : 'Â' ∉ s.data) :
    transformParsePrice ("Â£" ++ s) = parseFloat (trimL s.data) := by
  have hd : ("Â£" ++ s).data = 'Â' :: '£' :: s.data := by
    rw [String.data_append]
    rfl
  have e1 : replaceL ['Â', '£'] [] ('Â' :: '£' :: s.data) = s.data := by
    rw [replaceL]
    simp only [List.length_cons]
    rw [replaceAux_two_match]
    exact replaceAux_of_head_not_mem 'Â' ['£'] [] _ s.data h2
  unfold transformParsePrice
  rw [hd, e1, replaceL_not_mem '£' [] s.data h1]

/-! ### Claim theorems -/

/-- C1: on the raw input list [A: "£10.00" in stock, B: "£5.00" out of
stock], `transform_data` returns exactly one processed record, for A, with
price_gbp 10.00, price_usd 12.70 and price_eur 11.70 (multipliers 1.27 and
1.17, rounded to two decimals), and a summary with total_books_raw 2,
books_in_stock 1, books_out_of_stock 1 and total_inventory_value_gbp
10.00; the out-of-stock record is dropped from the processed list but
still counted in the summary. -/
theorem transform_data_end_to_end_scenario :
    transform_data
      [{ title := "A", price := "£10.00", availability := "In stock (3 available)" },
       { title := "B", price := "£5.00", availability := "Out of stock" }]
    = ([{ title := "A", price_gbp := 10, price_usd := 127 / 10, price_eur := 117 / 10,
          in_stock := true, availability := "In stock (3 available)" }],
       { total_books_raw := 2, books_in_stock := 1, books_out_of_stock := 1,
         total_inventory_value_gbp := 10, total_inventory_value_usd := 127 / 10,
         average_price_gbp := 10 }) := by
  have hA : transformParsePrice "£10.00" = some 10 := by
    have hsp : splitDecimal (trimL (replaceL ['£'] []
        (replaceL ['Â', '£'] [] ("£10.00" : String).data)))
        = some (['1', '0'], ['0', '0']) := by decide
    unfold transformParsePrice parseFloat
    rw [hsp]
    simp only [Option.map_some']
    norm_num [(by decide : digitsVal ['1', '0'] = 10),
      (by decide : digitsVal ['0', '0'] = 0)]
  have hB : transformParsePrice "£5.00" = some 5 := by
    have hsp : splitDecimal (trimL (replaceL ['£'] []
        (replaceL ['Â', '£'] [] ("£5.00" : String).data)))
        = some (['5'], ['0', '0']) := by decide
    unfold transformParsePrice parseFloat
    rw [hsp]
    simp only [Option.map_some']
    norm_num [(by decide : digitsVal ['5'] = 5),
      (by decide : digitsVal ['0', '0'] = 0)]
  have hInA : transformIsInStock "In stock (3 available)" = true := by decide
  have hInB : transformIsInStock "Out of stock" = false := by decide
  have r1 : round2 (10 : ℚ) = 10 := by
    rw [round2_eq_of_mul_hundred (10 : ℚ) 1000 (by norm_num)]; norm_num
  have r2 : round2 ((127 : ℚ) / 10) = 127 / 10 := by
    rw [round2_eq_of_mul_hundred _ 1270 (by norm_num)]; norm_num
  have r3 : round2 ((117 : ℚ) / 10) = 117 / 10 := by
    rw [round2_eq_of_mul_hundred _ 1170 (by norm_num)]; norm_num
  simp only [transform_data, List.foldl, transformStep, hA, hB, hInA, hInB]
  norm_num [r1, r2, r3]

/-- C2: price parsing strips both the correct currency-symbol prefix and
the mis-encoded variant and yields the same decimal value, both in the
Collector's `parse_price` and in the Reconciler's inline extraction: for
any remainder free of the symbol characters, all four parses equal the
plain parse of the remainder, and concretely "£51.77" and "Â£51.77" both
parse to 51.77 in both. -/
theorem price_parsing_strips_symbol_variants :
    (∀ s : String, '£' ∉ s.data → 'Â' ∉ s.data →
        parse_price ("£" ++ s) = parseFloat (trimL s.data)
      ∧ parse_price ("Â£" ++ s) = parseFloat (trimL s.data)
      ∧ transformParsePrice ("£" ++ s) = parseFloat (trimL s.data)
      ∧ transformParsePrice ("Â£" ++ s) = parseFloat (trimL s.data))
    ∧ parse_price "£51.77" = some (5177 / 100)
    ∧ parse_price "Â£51.77" = some (5177 / 100)
    ∧ transformParsePrice "£51.77" = some (5177 / 100)
    ∧ transformParsePrice "Â£51.77" = some (5177 / 100) := by
  have hval : parseFloat (trimL ("51.77" : String).data) = some (5177 / 100) := by
    have hsp : splitDecimal (trimL ("51.77" : String).data)
        = some (['5', '1'], ['7', '7']) := by decide
    unfold parseFloat
    rw [hsp]
    simp only [Option.map_some']
    norm_num [(by decide : digitsVal ['5', '1'] = 51),
      (by decide : digitsVal ['7', '7'] = 77)]
  have e1 : ("£51.77" : String) = "£" ++ "51.77" := by decide
  have e2 : ("Â£51.77" : String) = "Â£" ++ "51.77" := by decide
  refine ⟨fun s h1 h2 => ⟨parse_price_pound s h1 h2, parse_price_miscoded s h1 h2,
    transform_parse_pound s h1 h2, transform_parse_miscoded s h1 h2⟩, ?_, ?_, ?_, ?_⟩
  · rw [e1, parse_price_pound "51.77" (by decide) (by decide), hval]
  · rw [e2, parse_price_miscoded "51.77" (by decide) (by decide), hval]
  · rw [e1, transform_parse_pound "51.77" (by decide) (by decide), hval]
  · rw [e2, transform_parse_miscoded "51.77" (by decide) (by decide), hval]

/-- C3: the count `save_to_rds` returns equals the number of scraped
records minus the number whose price fails to parse; a record whose price
fails to parse is skipped on its own and never aborts the batch (the batch
built from all records equals the batch built from just the parsable
ones). -/
theorem staging_insert_count_skips_unparsable (books : List RawBook)
    (rd bid : String) :
    save_to_rds books rd bid
      = books.length - (books.filter (fun b => (parse_price b.price).isNone)).length
    ∧ save_to_rds books rd bid
      + (books.filter (fun b => (parse_price b.price).isNone)).length = books.length
    ∧ buildBatchData books rd bid
      = buildBatchData (books.filter (fun b => (parse_price b.price).isSome)) rd bid := by
  have h := buildBatchData_length books rd bid
  refine ⟨?_, ?_, buildBatchData_skips books rd bid⟩ <;>
    · simp only [save_to_rds]
      omega

/-- C4: whenever the transform's in-stock count is zero, the daily
summary's average price is exactly 0 (the guarded branch avoids the
division). -/
theorem average_price_zero_when_no_in_stock (raw : List RawBook)
    (h : (transform_data raw).2.books_in_stock = 0) :
    (transform_data raw).2.average_price_gbp = 0 := by
  dsimp only [transform_data] at h ⊢
  rw [h]
  simp

/-- Witness for C4 at the concrete input [out-of-stock record]. -/
theorem average_price_zero_when_no_in_stock_witness :
    (transform_data [outOfStockBook]).2.books_in_stock = 0
    ∧ (transform_data [outOfStockBook]).2.average_price_gbp = 0 :=
  ⟨by decide, average_price_zero_when_no_in_stock [outOfStockBook] (by decide)⟩

/-- C5: when the connectivity test passes and the scrape yields zero
records, the Collector run fails with the empty-result error and performs
no object-storage write and no staging insert (its effect list is
empty). -/
theorem collector_empty_scrape_no_writes (env : CollectorEnv)
    (h1 : env.dbOk = true) (h2 : env.scrape = .ok []) :
    extract_lambda_handler env = (.error .emptyResult, []) := by
  simp [extract_lambda_handler, extractPipeline, h1, h2]

/-- Witness for C5 at a concrete environment with an empty scrape. -/
theorem collector_empty_scrape_no_writes_witness :
    (emptyScrapeEnv.dbOk = true ∧ emptyScrapeEnv.scrape = .ok [])
    ∧ extract_lambda_handler emptyScrapeEnv = (.error .emptyResult, []) :=
  ⟨⟨rfl, rfl⟩, collector_empty_scrape_no_writes emptyScrapeEnv rfl rfl⟩

/-- C6: when the raw object for the run date is absent, `read_from_s3`
fails with the dedicated missing-upstream error, which is distinct from
every generic storage error. -/
theorem read_raw_missing_key_distinct_error (s3 : String → S3ReadOutcome)
    (run_date : String) (h : s3 (raw_key run_date) = .noSuchKey) :
    read_from_s3 s3 run_date
      = .error (.missingUpstream ("Raw data file not found: " ++ raw_key run_date))
    ∧ ∀ n m, TransformError.missingUpstream ("Raw data file not found: " ++ raw_key run_date)
        ≠ .storageFailure n m := by
  refine ⟨?_, by simp⟩
  simp [read_from_s3, h]

/-- Witness for C6 at a concrete empty object store. -/
theorem read_raw_missing_key_distinct_error_witness :
    emptyS3 (raw_key "2026-02-03") = .noSuchKey
    ∧ (read_from_s3 emptyS3 "2026-02-03"
        = .error (.missingUpstream ("Raw data file not found: " ++ raw_key "2026-02-03"))
      ∧ ∀ n m, TransformError.missingUpstream ("Raw data file not found: " ++ raw_key "2026-02-03")
          ≠ .storageFailure n m) :=
  ⟨rfl, read_raw_missing_key_distinct_error emptyS3 "2026-02-03" rfl⟩

/-- C7: code bug.  The claim describes the intended resolution (most
recent unprocessed batch for the run date, BatchNotFoundError when none),
but the code's fixed query text combines `SELECT DISTINCT batch_id` with
`ORDER BY created_at DESC`, which PostgreSQL rejects (SQLSTATE 42P10), so
`get_extract_batch_id` raises a `ProgrammingError` on every call: at the
concrete failing input `demoStaging` — one unprocessed row for the run
date — it neither returns that row's batch id (which the described lookup
`specBatchIdQuery` does return) nor ever reaches the batch-not-found
raise. -/
theorem batch_id_query_always_raises :
    (∀ (staging : List StagingRow) (run_date : String),
        get_extract_batch_id staging run_date
          = .error (.invalidQuery
              "for SELECT DISTINCT, ORDER BY expressions must appear in select list"))
    ∧ specBatchIdQuery demoStaging "2026-02-03" = .ok "extract_2026-02-03_080512"
    ∧ get_extract_batch_id demoStaging "2026-02-03"
        ≠ specBatchIdQuery demoStaging "2026-02-03"
    ∧ (∀ (staging : List StagingRow) (run_date rd : String),
        get_extract_batch_id staging run_date ≠ .error (.batchNotFound rd)) := by
  have h2 : specBatchIdQuery demoStaging "2026-02-03" = .ok "extract_2026-02-03_080512" := by
    rfl
  refine ⟨fun _ _ => rfl, h2, ?_, fun _ _ _ => by simp [get_extract_batch_id]⟩
  rw [h2]
  simp [get_extract_batch_id]

/-- C8: the CDC invocation applies the procedure to (batch id, run date) in
that positional order; when the call returns a first row of five integers,
the returned CDC summary's five fields equal the row's five integers in
the fixed order and the transaction commits; when it returns zero rows,
it fails with the reconciliation error after rolling back. -/
theorem cdc_result_fields_and_zero_row_failure
    (proc : String × String → List (ℤ × ℤ × ℤ × ℤ × ℤ)) (bid rd : String) :
    (∀ a b c d e rest, proc (bid, rd) = (a, b, c, d, e) :: rest →
        execute_cdc_batch_processing proc bid rd
          = (.ok ⟨a, b, c, d, e⟩, [.commit]))
    ∧ (proc (bid, rd) = [] →
        execute_cdc_batch_processing proc bid rd
          = (.error (.reconciliation "CDC stored procedure returned no results"),
             [.rollback])) := by
  constructor
  · intro a b c d e rest h
    simp [execute_cdc_batch_processing, h]
  · intro h
    simp [execute_cdc_batch_processing, h]

/-- C9: on every failing run the Collector propagates the failure to its
caller (the handler's result is the raised error), while the Reconciler
never propagates: it returns the 500 payload carrying the error message
and error type instead of raising. -/
theorem collector_raises_reconciler_returns :
    (∀ (env : CollectorEnv) (e : CollectorError),
        (extractPipeline env).1 = .error e →
          extract_lambda_handler env = (.error e, (extractPipeline env).2))
    ∧ (∀ (env : TransformEnv) (e : TransformError),
        (transformPipeline env).1 = .error e →
          transform_lambda_handler env
              = .failure (errorMessage e) (errorTypeName e)
            ∧ statusCode (transform_lambda_handler env) = 500
            ∧ statusCode (transform_lambda_handler env) ≠ 200) := by
  constructor
  · intro env e h
    rcases hp : extractPipeline env with ⟨r, effs⟩
    have hr : r = .error e := by rw [hp] at h; exact h
    subst hr
    simp [extract_lambda_handler, hp]
  · intro env e h
    simp [transform_lambda_handler, h, statusCode]

/-- C10: both jobs classify availability with the identical case-sensitive
substring test for "In stock", so the in-stock flag the Collector writes
to staging always equals the classification the Reconciler computes for
the same availability text; in particular a lowercase "in stock" text is
classified out-of-stock by both. -/
theorem in_stock_classification_agreement :
    (∀ availability : String,
        extractIsInStock availability = transformIsInStock availability)
    ∧ extractIsInStock "in stock" = false
    ∧ transformIsInStock "in stock" = false :=
  ⟨fun _ => rfl, by decide, by decide⟩
